import Mathlib

/-!
Verification development for the onramp-demo-application repository.

The definitions below are a shallow embedding of the selection-state
logic in `src/app/components/OfframpFeature.tsx`, the fetch-and-cache
utilities in `src/app/utils/onrampApi.ts` and the offramp API utilities,
and the Next.js API route handlers (sell-config, sell-options,
sell-quote, buy-config).  Stateful code (module-level caches, React
state) is embedded as explicit state passing; fallible upstream calls
are embedded as an `Except`-valued input describing the outcome of the
HTTP round trip.
-/

namespace OfframpFeature

/-- Static asset to compatible-network table, embedded from the
`assetNetworkMap` record literal in `src/app/components/OfframpFeature.tsx`
(lines 74-99).  A JS record keyed by strings is embedded as an
association list queried with `List.lookup`. -/
def assetNetworkMap : List (String × List String) :=
  [ ("ETH", ["ethereum", "base", "optimism", "arbitrum", "polygon"]),
    ("USDC", ["ethereum", "base", "optimism", "arbitrum", "polygon", "solana",
              "avalanche-c-chain", "unichain", "aptos", "bnb-chain"]),
    ("BTC", ["bitcoin"]),
    ("SOL", ["solana"]),
    ("MATIC", ["polygon", "ethereum"]),
    ("AVAX", ["avalanche-c-chain", "ethereum"]),
    ("LINK", ["ethereum", "base", "arbitrum"]),
    ("UNI", ["ethereum", "polygon"]),
    ("DOGE", ["dogecoin"]),
    ("SHIB", ["ethereum"]),
    ("XRP", ["ripple"]),
    ("LTC", ["litecoin"]),
    ("BCH", ["bitcoin-cash"]) ]

/-- The fixed list of US state codes offered by the State select
(`US_STATES` in `OfframpFeature.tsx`, lines 141-193, names omitted). -/
def usStateCodes : List String :=
  [ "AL", "AK", "AZ", "AR", "CA", "CO", "CT", "DE", "FL", "GA",
    "HI", "ID", "IL", "IN", "IA", "KS", "KY", "LA", "ME", "MD",
    "MA", "MI", "MN", "MS", "MO", "MT", "NE", "NV", "NH", "NJ",
    "NM", "NY", "NC", "ND", "OH", "OK", "OR", "PA", "RI", "SC",
    "SD", "TN", "TX", "UT", "VT", "VA", "WA", "WV", "WI", "WY", "DC" ]

/-- The cross-field selection state owned by the component: the React
state variables `selectedCountry`, `selectedSubdivision`, `selectedAsset`
and `selectedNetwork` of `OfframpFeature`. -/
structure SelectionState where
  country : String
  subdivision : String
  asset : String
  network : String
deriving DecidableEq, Repr

/-- Initial component state (`useState` initialisers, lines 202-209). -/
def initialSelection : SelectionState :=
  { country := "US", subdivision := "CA", asset := "USDC", network := "base" }

/-- Network repair from the `useEffect` at lines 519-527: if the table
has an entry for the selected asset and the selected network is not in
it, the network becomes the first entry of the set
(`compatibleNetworks[0]`; every table entry is non-empty, so `headD`
coincides with JS index 0). -/
def repairNetwork (asset network : String) : String :=
  match assetNetworkMap.lookup asset with
  | none => network
  | some compatibleNetworks =>
      if network ∈ compatibleNetworks then network
      else compatibleNetworks.headD network

/-- The selection-state repair: the network-repair `useEffect` applied to
the whole state (it only ever writes `selectedNetwork`). -/
def resolveSelection (s : SelectionState) : SelectionState :=
  { s with network := repairNetwork s.asset s.network }

/-- The `handleAssetChange` handler (lines 529-549), restricted to the
selection-state fields it writes: it sets the asset, and replaces the
network by the first compatible one when the current network is not in
the table entry for the new asset. -/
def handleAssetChange (s : SelectionState) (assetCode : String) : SelectionState :=
  let s1 := { s with asset := assetCode }
  match assetNetworkMap.lookup assetCode with
  | none => s1
  | some compatibleNetworks =>
      if s1.network ∈ compatibleNetworks then s1
      else { s1 with network := compatibleNetworks.headD s1.network }

/-- The country select `onChange` handler (lines 820-827): it sets the
country and unconditionally resets the subdivision to the empty string. -/
def handleCountryChange (s : SelectionState) (newCountry : String) : SelectionState :=
  { s with country := newCountry, subdivision := "" }

/-- A successful lookup in an association list returns one of its
values. -/
theorem lookup_mem_values {β : Type} (l : List (String × β)) (k : String) (v : β)
    (h : l.lookup k = some v) : v ∈ l.map Prod.snd := by
  induction l with
  | nil => simp [List.lookup] at h
  | cons p t ih =>
    rw [List.lookup] at h
    by_cases hk : k == p.1
    · simp [hk] at h
      simp [h.symm]
    · simp [hk] at h
      simp [ih h]

/-- Every network set stored in the compatibility table is non-empty. -/
theorem assetNetworkMap_values_ne_nil :
    ∀ v ∈ assetNetworkMap.map Prod.snd, v ≠ [] := by decide

/-- C1: after the repair runs for an asset present in the compatibility
table, the selected network is a member of the table entry; a prior
network already in the set is kept, any other prior network is replaced
by the first entry of the set. -/
theorem c1_repaired_network_in_table (s : SelectionState) (nets : List String)
    (h : assetNetworkMap.lookup s.asset = some nets) :
    (resolveSelection s).network ∈ nets ∧
    (s.network ∈ nets → (resolveSelection s).network = s.network) ∧
    (s.network ∉ nets → (resolveSelection s).network = nets.headD s.network) := by
  have hne : nets ≠ [] := assetNetworkMap_values_ne_nil nets (lookup_mem_values _ _ _ h)
  unfold resolveSelection repairNetwork
  rw [h]
  by_cases hm : s.network ∈ nets
  · simp [hm]
  · cases nets with
    | nil => exact absurd rfl hne
    | cons b t => simp [hm]

/-- Witness for C1 at a concrete prior selection: asset USDC with the
incompatible prior network tron is repaired into the USDC set. -/
theorem c1_witness :
    (resolveSelection { country := "US", subdivision := "CA",
                        asset := "USDC", network := "tron" }).network ∈
      ["ethereum", "base", "optimism", "arbitrum", "polygon", "solana",
       "avalanche-c-chain", "unichain", "aptos", "bnb-chain"] :=
  (c1_repaired_network_in_table
    { country := "US", subdivision := "CA", asset := "USDC", network := "tron" }
    ["ethereum", "base", "optimism", "arbitrum", "polygon", "solana",
     "avalanche-c-chain", "unichain", "aptos", "bnb-chain"] rfl).1

/-- Repairing a network twice for the same asset is the same as
repairing it once. -/
theorem repairNetwork_idem (a n : String) :
    repairNetwork a (repairNetwork a n) = repairNetwork a n := by
  unfold repairNetwork
  cases h : assetNetworkMap.lookup a with
  | none => rfl
  | some nets =>
    by_cases hn : n ∈ nets
    · simp [hn]
    · cases nets with
      | nil => simp [hn]
      | cons b t => simp [hn]

/-- C2: the selection-state repair is idempotent, and it is a no-op on
any state produced by the asset-change handler (which applies the same
repair inline). -/
theorem c2_resolve_idempotent (s : SelectionState) (assetCode : String) :
    resolveSelection (resolveSelection s) = resolveSelection s ∧
    resolveSelection (handleAssetChange s assetCode) = handleAssetChange s assetCode := by
  constructor
  · simp [resolveSelection, repairNetwork_idem]
  · unfold handleAssetChange
    cases h : assetNetworkMap.lookup assetCode with
    | none => simp [resolveSelection, repairNetwork, h]
    | some nets =>
      by_cases hn : s.network ∈ nets
      · simp [hn, resolveSelection, repairNetwork, h]
      · cases nets with
        | nil => simp [hn, resolveSelection, repairNetwork, h]
        | cons b t =>
          simp [hn, resolveSelection, repairNetwork, h]

/-- C6 counterexample: changing the country to US leaves the subdivision
empty rather than setting a fixed non-empty default region; the empty
string is not one of the 51 region codes. -/
theorem c6_counterexample :
    (handleCountryChange { country := "GB", subdivision := "",
                           asset := "USDC", network := "base" } "US").country = "US" ∧
    (handleCountryChange { country := "GB", subdivision := "",
                           asset := "USDC", network := "base" } "US").subdivision = "" ∧
    "" ∉ usStateCodes := by
  refine ⟨rfl, rfl, ?_⟩
  decide

/-- C6 amended: every country change clears the subdivision to the empty
string, with no special case for US; the other selection fields are
untouched (only the initial state carries the non-empty default CA). -/
theorem c6_amended_subdivision_always_cleared (s : SelectionState) (c : String) :
    (handleCountryChange s c).country = c ∧
    (handleCountryChange s c).subdivision = "" ∧
    (handleCountryChange s c).asset = s.asset ∧
    (handleCountryChange s c).network = s.network :=
  ⟨rfl, rfl, rfl, rfl⟩

end OfframpFeature

namespace Onramp

/-! Embedding of `src/app/utils/onrampApi.ts`: raw CDP API response
types, UI-friendly types, display-name tables, the two transform
functions, and the module-level cache around `fetchBuyConfig` and
`fetchBuyOptions`. -/

structure ApiPaymentMethodType where
  id : String
deriving DecidableEq, Repr

structure ApiSupportedCountry where
  id : String
  payment_methods : List ApiPaymentMethodType
  subdivisions : Option (List String)
deriving DecidableEq, Repr

structure ApiBuyConfigResponse where
  countries : List ApiSupportedCountry
deriving DecidableEq, Repr

structure ApiPaymentMethodLimit where
  id : String
  min : String
  max : String
deriving DecidableEq, Repr

structure ApiPaymentCurrency where
  id : String
  limits : List ApiPaymentMethodLimit
deriving DecidableEq, Repr

structure ApiPublicNetwork where
  name : String
  display_name : String
  chain_id : Option Nat
  contract_address : Option String
deriving DecidableEq, Repr

structure ApiPurchaseCurrency where
  id : String
  symbol : String
  name : String
  networks : List ApiPublicNetwork
  icon_url : Option String
deriving DecidableEq, Repr

structure ApiBuyOptionsResponse where
  payment_currencies : List ApiPaymentCurrency
  purchase_currencies : List ApiPurchaseCurrency
deriving DecidableEq, Repr

structure PaymentMethod where
  id : String
  name : String
  description : Option String
deriving DecidableEq, Repr

structure Country where
  id : String
  name : String
  paymentMethods : List PaymentMethod
  subdivisions : Option (List String)
deriving DecidableEq, Repr

structure BuyConfigResponse where
  countries : List Country
deriving DecidableEq, Repr

structure CurrencyLimit where
  id : String
  min : String
  max : String
deriving DecidableEq, Repr

structure PaymentCurrency where
  id : String
  name : String
  limits : List CurrencyLimit
deriving DecidableEq, Repr

structure Network where
  id : String
  name : String
  chainId : Option Nat
  contractAddress : Option String
deriving DecidableEq, Repr

structure PurchaseCurrency where
  id : String
  symbol : String
  name : String
  networks : List Network
  iconUrl : Option String
deriving DecidableEq, Repr

structure BuyOptionsResponse where
  paymentCurrencies : List PaymentCurrency
  purchaseCurrencies : List PurchaseCurrency
deriving DecidableEq, Repr

/-- The `countryNames` display-name record (onrampApi.ts lines 109-195). -/
def countryNames : List (String × String) :=
  [ ("US", "United States"), ("CA", "Canada"), ("MX", "Mexico"),
    ("GB", "United Kingdom"), ("DE", "Germany"), ("FR", "France"),
    ("ES", "Spain"), ("IT", "Italy"), ("NL", "Netherlands"),
    ("CH", "Switzerland"), ("SE", "Sweden"), ("NO", "Norway"),
    ("DK", "Denmark"), ("FI", "Finland"), ("IE", "Ireland"),
    ("AT", "Austria"), ("BE", "Belgium"), ("PT", "Portugal"),
    ("GR", "Greece"), ("PL", "Poland"), ("CZ", "Czech Republic"),
    ("SK", "Slovakia"), ("HU", "Hungary"), ("RO", "Romania"),
    ("BG", "Bulgaria"), ("HR", "Croatia"), ("SI", "Slovenia"),
    ("LT", "Lithuania"), ("LV", "Latvia"), ("EE", "Estonia"),
    ("CY", "Cyprus"), ("MT", "Malta"), ("LU", "Luxembourg"),
    ("IS", "Iceland"), ("LI", "Liechtenstein"), ("MC", "Monaco"),
    ("AU", "Australia"), ("NZ", "New Zealand"), ("JP", "Japan"),
    ("SG", "Singapore"), ("HK", "Hong Kong"), ("KR", "South Korea"),
    ("TW", "Taiwan"), ("TH", "Thailand"), ("MY", "Malaysia"),
    ("PH", "Philippines"), ("ID", "Indonesia"), ("VN", "Vietnam"),
    ("IN", "India"), ("CN", "China"), ("AE", "United Arab Emirates"),
    ("SA", "Saudi Arabia"), ("QA", "Qatar"), ("BH", "Bahrain"),
    ("KW", "Kuwait"), ("OM", "Oman"), ("IL", "Israel"),
    ("ZA", "South Africa"), ("EG", "Egypt"), ("NG", "Nigeria"),
    ("KE", "Kenya"), ("BR", "Brazil"), ("AR", "Argentina"),
    ("CL", "Chile"), ("CO", "Colombia"), ("PE", "Peru"),
    ("UY", "Uruguay"), ("CR", "Costa Rica"), ("PA", "Panama"),
    ("TR", "Turkey"), ("RU", "Russia"), ("UA", "Ukraine"),
    ("BY", "Belarus"), ("KZ", "Kazakhstan") ]

structure PaymentMethodName where
  name : String
  description : String
deriving DecidableEq, Repr

/-- The `paymentMethodNames` record (onrampApi.ts lines 198-209). -/
def paymentMethodNames : List (String × PaymentMethodName) :=
  [ ("CARD", { name := "Debit/Credit Card", description := "Available in 90+ countries" }),
    ("ACH_BANK_ACCOUNT", { name := "Bank Transfer (ACH)", description := "US only, 1-3 business days" }),
    ("APPLE_PAY", { name := "Apple Pay", description := "Available on iOS devices" }),
    ("PAYPAL", { name := "PayPal", description := "Available in select countries" }),
    ("RTP", { name := "Real-Time Payments (RTP)", description := "US only, instant" }),
    ("FIAT_WALLET", { name := "Coinbase Fiat Wallet", description := "Instant transfer to your Coinbase account" }),
    ("CRYPTO_ACCOUNT", { name := "Crypto Account", description := "Coinbase crypto account" }),
    ("GUEST_CHECKOUT_CARD", { name := "Guest Checkout Card", description := "Card payment without account" }),
    ("GUEST_CHECKOUT_APPLE_PAY", { name := "Guest Checkout Apple Pay", description := "Apple Pay without account" }),
    ("UNSPECIFIED", { name := "Unspecified", description := "Payment method not specified" }) ]

/-- The `currencyNames` record (onrampApi.ts lines 212-225). -/
def currencyNames : List (String × String) :=
  [ ("USD", "US Dollar"), ("EUR", "Euro"), ("GBP", "British Pound"),
    ("CAD", "Canadian Dollar"), ("AUD", "Australian Dollar"),
    ("JPY", "Japanese Yen"), ("CHF", "Swiss Franc"),
    ("NZD", "New Zealand Dollar"), ("SGD", "Singapore Dollar"),
    ("HKD", "Hong Kong Dollar"), ("MXN", "Mexican Peso"),
    ("BRL", "Brazilian Real") ]

/-- `transformBuyConfigResponse` (onrampApi.ts lines 228-241): enrich
ids with display names, falling back to the raw id when the lookup
table has no entry. -/
def transformBuyConfigResponse (apiResponse : ApiBuyConfigResponse) : BuyConfigResponse :=
  { countries := apiResponse.countries.map (fun country =>
      { id := country.id,
        name := (countryNames.lookup country.id).getD country.id,
        paymentMethods := country.payment_methods.map (fun pm =>
          { id := pm.id,
            name := ((paymentMethodNames.lookup pm.id).map (·.name)).getD pm.id,
            description := (paymentMethodNames.lookup pm.id).map (·.description) }),
        subdivisions := country.subdivisions }) }

/-- `transformBuyOptionsResponse` (onrampApi.ts lines 244-270): limits
rows of a payment currency are copied field for field; asset `symbol`
keeps its role, network `name` becomes the id and `display_name` the
name. -/
def transformBuyOptionsResponse (apiResponse : ApiBuyOptionsResponse) : BuyOptionsResponse :=
  { paymentCurrencies := apiResponse.payment_currencies.map (fun currency =>
      { id := currency.id,
        name := (currencyNames.lookup currency.id).getD currency.id,
        limits := currency.limits.map (fun limit =>
          { id := limit.id, min := limit.min, max := limit.max }) }),
    purchaseCurrencies := apiResponse.purchase_currencies.map (fun asset =>
      { id := asset.id,
        symbol := asset.symbol,
        name := asset.name,
        networks := asset.networks.map (fun network =>
          { id := network.name,
            name := network.display_name,
            chainId := network.chain_id,
            contractAddress := network.contract_address }),
        iconUrl := asset.icon_url }) }

/-- Cache TTL constant `CACHE_EXPIRY = 1000 * 60 * 15` (15 minutes). -/
def CACHE_EXPIRY : Nat := 1000 * 60 * 15

/-- The module-level mutable cache variables of onrampApi.ts
(lines 272-277), embedded as an explicit state record.  The JS records
keyed by cache key are association lists whose most recent write is
consulted first. -/
structure OnrampCacheState where
  buyConfigCache : Option BuyConfigResponse
  lastConfigFetch : Nat
  buyOptionsCache : List (String × BuyOptionsResponse)
  lastOptionsFetch : List (String × Nat)
deriving DecidableEq, Repr

/-- The initial module state: empty caches, `lastConfigFetch = 0`. -/
def initialCacheState : OnrampCacheState :=
  { buyConfigCache := none, lastConfigFetch := 0,
    buyOptionsCache := [], lastOptionsFetch := [] }

/-- The hard-coded buy-config fallback dataset returned by
`fetchBuyConfig` when the API fails and no cache exists
(onrampApi.ts lines 356-412). -/
def buyConfigFallback : BuyConfigResponse :=
  { countries :=
    [ { id := "US", name := "United States",
        paymentMethods :=
          [ { id := "CARD", name := "Debit/Credit Card", description := some "Available in 90+ countries" },
            { id := "ACH_BANK_ACCOUNT", name := "Bank Transfer (ACH)", description := some "US only, 1-3 business days" },
            { id := "APPLE_PAY", name := "Apple Pay", description := some "Available on iOS devices" },
            { id := "PAYPAL", name := "PayPal", description := some "Available in select countries" } ],
        subdivisions := some
          [ "AL", "AK", "AZ", "AR", "CA", "CO", "CT", "DE", "FL", "GA",
            "HI", "ID", "IL", "IN", "IA", "KS", "KY", "LA", "ME", "MD",
            "MA", "MI", "MN", "MS", "MO", "MT", "NE", "NV", "NH", "NJ",
            "NM", "NY", "NC", "ND", "OH", "OK", "OR", "PA", "RI", "SC",
            "SD", "TN", "TX", "UT", "VT", "VA", "WA", "WV", "WI", "WY", "DC" ] },
      { id := "GB", name := "United Kingdom",
        paymentMethods :=
          [ { id := "CARD", name := "Debit/Credit Card", description := some "Available in 90+ countries" },
            { id := "PAYPAL", name := "PayPal", description := some "Available in select countries" } ],
        subdivisions := none },
      { id := "CA", name := "Canada",
        paymentMethods :=
          [ { id := "CARD", name := "Debit/Credit Card", description := some "Available in 90+ countries" } ],
        subdivisions := none },
      { id := "DE", name := "Germany",
        paymentMethods :=
          [ { id := "CARD", name := "Debit/Credit Card", description := some "Available in 90+ countries" } ],
        subdivisions := none },
      { id := "FR", name := "France",
        paymentMethods :=
          [ { id := "CARD", name := "Debit/Credit Card", description := some "Available in 90+ countries" } ],
        subdivisions := none },
      { id := "AU", name := "Australia",
        paymentMethods :=
          [ { id := "CARD", name := "Debit/Credit Card", description := some "Available in 90+ countries" } ],
        subdivisions := none } ] }

/-- The hard-coded buy-options fallback dataset (onrampApi.ts
lines 480-667). -/
def buyOptionsFallback : BuyOptionsResponse :=
  { paymentCurrencies :=
    [ { id := "USD", name := "US Dollar",
        limits :=
          [ { id := "CARD", min := "10.00", max := "1000.00" },
            { id := "ACH_BANK_ACCOUNT", min := "10.00", max := "25000.00" },
            { id := "APPLE_PAY", min := "10.00", max := "1000.00" },
            { id := "PAYPAL", min := "10.00", max := "1000.00" } ] },
      { id := "EUR", name := "Euro",
        limits :=
          [ { id := "CARD", min := "10.00", max := "1000.00" },
            { id := "SEPA", min := "10.00", max := "25000.00" } ] },
      { id := "GBP", name := "British Pound",
        limits :=
          [ { id := "CARD", min := "10.00", max := "1000.00" },
            { id := "PAYPAL", min := "10.00", max := "1000.00" } ] } ],
    purchaseCurrencies :=
    [ { id := "ETH", symbol := "ETH", name := "Ethereum", iconUrl := some "",
        networks :=
          [ { id := "ethereum", name := "Ethereum", chainId := some 1, contractAddress := some "" },
            { id := "optimism", name := "Optimism", chainId := some 10, contractAddress := some "" },
            { id := "arbitrum", name := "Arbitrum", chainId := some 42161, contractAddress := some "" },
            { id := "base", name := "Base", chainId := some 8453, contractAddress := some "" } ] },
      { id := "USDC", symbol := "USDC", name := "USD Coin", iconUrl := some "",
        networks :=
          [ { id := "ethereum", name := "Ethereum", chainId := some 1,
              contractAddress := some "0xa0b86991c6218b36c1d19d4a2e9eb0ce3606eb48" },
            { id := "optimism", name := "Optimism", chainId := some 10,
              contractAddress := some "0x7f5c764cbc14f9669b88837ca1490cca17c31607" },
            { id := "arbitrum", name := "Arbitrum", chainId := some 42161,
              contractAddress := some "0xff970a61a04b1ca14834a43f5de4533ebddb5cc8" },
            { id := "base", name := "Base", chainId := some 8453,
              contractAddress := some "0x833589fcd6edb6e08f4c7c32d4f71b54bda02913" },
            { id := "polygon", name := "Polygon", chainId := some 137,
              contractAddress := some "0x2791bca1f2de4661ed88a30c99a7a9449aa84174" },
            { id := "solana", name := "Solana", chainId := some 0,
              contractAddress := some "EPjFWdd5AufqSSqeM2qN1xzybapC8G4wEGGkZwyTDt1v" } ] },
      { id := "BTC", symbol := "BTC", name := "Bitcoin", iconUrl := some "",
        networks :=
          [ { id := "bitcoin", name := "Bitcoin", chainId := some 0, contractAddress := some "" } ] },
      { id := "SOL", symbol := "SOL", name := "Solana", iconUrl := some "",
        networks :=
          [ { id := "solana", name := "Solana", chainId := some 0, contractAddress := some "" } ] },
      { id := "MATIC", symbol := "MATIC", name := "Polygon", iconUrl := some "",
        networks :=
          [ { id := "ethereum", name := "Ethereum", chainId := some 1,
              contractAddress := some "0x7d1afa7b718fb893db30a3abc0cfc608aacfebb0" },
            { id := "polygon", name := "Polygon", chainId := some 137, contractAddress := some "" } ] } ] }

/-- The body of the `try` block of `fetchBuyConfig` after the cache
check, together with its `catch` handler: a successful upstream call is
transformed and stored; a failure of any kind returns the (possibly
expired) cache if present and the static fallback otherwise.  The
`upstream` argument stands for the whole HTTP round trip including
response-body parsing; any non-OK status, unparseable body or thrown
transport error is `Except.error`. -/
def fetchBuyConfigFresh (now : Nat) (upstream : Except Unit ApiBuyConfigResponse)
    (st : OnrampCacheState) : BuyConfigResponse × OnrampCacheState :=
  match upstream with
  | .ok apiData =>
      let transformedData := transformBuyConfigResponse apiData
      (transformedData,
        { st with buyConfigCache := some transformedData, lastConfigFetch := now })
  | .error _ =>
      match st.buyConfigCache with
      | some cached => (cached, st)
      | none => (buyConfigFallback, st)

/-- `fetchBuyConfig` (onrampApi.ts lines 315-414): serve a non-expired
cache entry without calling upstream, otherwise fetch and fall back per
`fetchBuyConfigFresh`. -/
def fetchBuyConfig (now : Nat) (upstream : Except Unit ApiBuyConfigResponse)
    (st : OnrampCacheState) : BuyConfigResponse × OnrampCacheState :=
  match st.buyConfigCache with
  | some cached =>
      if now - st.lastConfigFetch < CACHE_EXPIRY then (cached, st)
      else fetchBuyConfigFresh now upstream st
  | none => fetchBuyConfigFresh now upstream st

/-- The cache key `country + (subdivision ? "-" + subdivision : "")`;
an absent or empty subdivision is falsy in JS and adds no suffix. -/
def optionsCacheKey (country : String) (subdivision : Option String) : String :=
  country ++ (match subdivision with
    | some s => if s = "" then "" else "-" ++ s
    | none => "")

/-- The fetch-and-fallback part of `fetchBuyOptions` for a given cache
key, mirroring its `try` body after the cache check and its `catch`
handler. -/
def fetchBuyOptionsFresh (now : Nat) (cacheKey : String)
    (upstream : Except Unit ApiBuyOptionsResponse) (st : OnrampCacheState) :
    BuyOptionsResponse × OnrampCacheState :=
  match upstream with
  | .ok apiData =>
      let transformedData := transformBuyOptionsResponse apiData
      (transformedData,
        { st with buyOptionsCache := (cacheKey, transformedData) :: st.buyOptionsCache,
                  lastOptionsFetch := (cacheKey, now) :: st.lastOptionsFetch })
  | .error _ =>
      match st.buyOptionsCache.lookup cacheKey with
      | some cached => (cached, st)
      | none => (buyOptionsFallback, st)

/-- `fetchBuyOptions` (onrampApi.ts lines 420-669): per-key cache with
TTL, stale-entry fallback, then static fallback. -/
def fetchBuyOptions (now : Nat) (country : String) (subdivision : Option String)
    (upstream : Except Unit ApiBuyOptionsResponse) (st : OnrampCacheState) :
    BuyOptionsResponse × OnrampCacheState :=
  let cacheKey := optionsCacheKey country subdivision
  match st.buyOptionsCache.lookup cacheKey with
  | some cached =>
      if now - ((st.lastOptionsFetch.lookup cacheKey).getD 0) < CACHE_EXPIRY then
        (cached, st)
      else fetchBuyOptionsFresh now cacheKey upstream st
  | none => fetchBuyOptionsFresh now cacheKey upstream st

end Onramp

namespace Offramp

/-! Embedding of the offramp API utilities (the module imported as
`../utils/offrampApi`): raw sell-config and sell-options response
types, transforms, and the cache-less `fetchSellConfig` and
`fetchSellOptions` with their hard-coded fallback datasets. -/

structure PaymentMethodType where
  id : String
deriving DecidableEq, Repr

structure SupportedCountry where
  id : String
  payment_methods : List PaymentMethodType
  subdivisions : Option (List String)
deriving DecidableEq, Repr

structure SellConfigResponse where
  countries : List SupportedCountry
deriving DecidableEq, Repr

structure CashoutMethod where
  id : String
  name : String
  description : Option String
deriving DecidableEq, Repr

structure Country where
  code : String
  name : String
  cashout_methods : List CashoutMethod
  supported_states : Option (List String)
deriving DecidableEq, Repr

structure ApiPaymentMethodLimit where
  id : String
  min : String
  max : String
deriving DecidableEq, Repr

structure ApiFiatCurrency where
  id : String
  limits : List ApiPaymentMethodLimit
deriving DecidableEq, Repr

structure ApiNetwork where
  name : String
  display_name : String
  chain_id : Option Nat
  contract_address : Option String
deriving DecidableEq, Repr

structure ApiCryptoAsset where
  id : String
  symbol : String
  name : String
  networks : List ApiNetwork
  icon_url : Option String
deriving DecidableEq, Repr

structure ApiSellOptionsResponse where
  cashout_currencies : List ApiFiatCurrency
  sell_currencies : List ApiCryptoAsset
deriving DecidableEq, Repr

structure CurrencyLimit where
  min : String
  max : String
deriving DecidableEq, Repr

/-- A cashout method in the UI model; `limits` embeds the JS record
`Record<string, CurrencyLimit>` keyed by currency code as an
association list. -/
structure CashoutMethodOption where
  id : String
  name : String
  limits : List (String × CurrencyLimit)
deriving DecidableEq, Repr

structure FiatCurrency where
  code : String
  name : String
  cashout_methods : List CashoutMethodOption
deriving DecidableEq, Repr

structure NetworkRef where
  id : String
  name : String
deriving DecidableEq, Repr

structure CryptoAsset where
  code : String
  name : String
  networks : List NetworkRef
deriving DecidableEq, Repr

structure SellOptionsResponse where
  cashout_currencies : List FiatCurrency
  sell_currencies : List CryptoAsset
deriving DecidableEq, Repr

structure PaymentMethodName where
  name : String
  description : String
deriving DecidableEq, Repr

/-- The offramp `paymentMethodNames` record (part_001 lines 203-214). -/
def paymentMethodNames : List (String × PaymentMethodName) :=
  [ ("ACH_BANK_ACCOUNT", { name := "Bank Transfer (ACH)", description := "US only, 1-3 business days" }),
    ("PAYPAL", { name := "PayPal", description := "Available in select countries" }),
    ("FIAT_WALLET", { name := "Coinbase Fiat Wallet", description := "Instant transfer to your Coinbase account" }),
    ("RTP", { name := "Real-Time Payments (RTP)", description := "US only, instant" }),
    ("APPLE_PAY", { name := "Apple Pay", description := "Available in select countries" }),
    ("CARD", { name := "Debit/Credit Card", description := "Available in select countries" }),
    ("CRYPTO_ACCOUNT", { name := "Crypto Account", description := "Coinbase crypto account" }),
    ("GUEST_CHECKOUT_CARD", { name := "Guest Checkout Card", description := "Card payment without account" }),
    ("GUEST_CHECKOUT_APPLE_PAY", { name := "Guest Checkout Apple Pay", description := "Apple Pay without account" }),
    ("UNSPECIFIED", { name := "Unspecified", description := "Payment method not specified" }) ]

/-- The offramp `currencyNames` record (part_001 lines 263-276). -/
def currencyNames : List (String × String) :=
  [ ("USD", "US Dollar"), ("EUR", "Euro"), ("GBP", "British Pound"),
    ("CAD", "Canadian Dollar"), ("AUD", "Australian Dollar"),
    ("JPY", "Japanese Yen"), ("CHF", "Swiss Franc"),
    ("NZD", "New Zealand Dollar"), ("SGD", "Singapore Dollar"),
    ("HKD", "Hong Kong Dollar"), ("MXN", "Mexican Peso"),
    ("BRL", "Brazilian Real") ]

/-- The offramp `countryNames` record (part_001 lines 279-306). -/
def countryNames : List (String × String) :=
  [ ("US", "United States"), ("GB", "United Kingdom"), ("CA", "Canada"),
    ("DE", "Germany"), ("FR", "France"), ("ES", "Spain"), ("IT", "Italy"),
    ("AU", "Australia"), ("JP", "Japan"), ("NL", "Netherlands"),
    ("CH", "Switzerland"), ("SE", "Sweden"), ("NO", "Norway"),
    ("DK", "Denmark"), ("FI", "Finland"), ("IE", "Ireland"),
    ("AT", "Austria"), ("BE", "Belgium"), ("PT", "Portugal"),
    ("GR", "Greece"), ("NZ", "New Zealand"), ("SG", "Singapore"),
    ("HK", "Hong Kong"), ("AE", "United Arab Emirates"),
    ("BR", "Brazil"), ("MX", "Mexico") ]

/-- `transformSellConfigResponse` (part_001 lines 217-230). -/
def transformSellConfigResponse (apiResponse : SellConfigResponse) :
    List Country :=
  apiResponse.countries.map (fun country =>
    { code := country.id,
      name := (countryNames.lookup country.id).getD country.id,
      cashout_methods := country.payment_methods.map (fun pm =>
        { id := pm.id,
          name := ((paymentMethodNames.lookup pm.id).map (·.name)).getD pm.id,
          description := (paymentMethodNames.lookup pm.id).map (·.description) }),
      supported_states := country.subdivisions })

/-- `transformSellOptionsResponse` (part_001 lines 233-260): each limits
row of a fiat currency becomes a cashout method whose `limits` is the
singleton record keyed by that currency code. -/
def transformSellOptionsResponse (apiResponse : ApiSellOptionsResponse) :
    SellOptionsResponse :=
  { cashout_currencies := apiResponse.cashout_currencies.map (fun currency =>
      { code := currency.id,
        name := (currencyNames.lookup currency.id).getD currency.id,
        cashout_methods := currency.limits.map (fun limit =>
          { id := limit.id,
            name := ((paymentMethodNames.lookup limit.id).map (·.name)).getD limit.id,
            limits := [(currency.id, { min := limit.min, max := limit.max })] }) }),
    sell_currencies := apiResponse.sell_currencies.map (fun asset =>
      { code := asset.symbol,
        name := asset.name,
        networks := asset.networks.map (fun network =>
          { id := network.name, name := network.display_name }) }) }

/-- The hard-coded sell-config fallback dataset returned by
`fetchSellConfig` on any failure (part_001 lines 337-423). -/
def sellConfigFallback : List Country :=
  [ { code := "US", name := "United States",
      cashout_methods :=
        [ { id := "ACH_BANK_ACCOUNT", name := "Bank Transfer (ACH)", description := some "US only, 1-3 business days" },
          { id := "PAYPAL", name := "PayPal", description := some "Available in select countries" },
          { id := "FIAT_WALLET", name := "Coinbase Fiat Wallet", description := some "Instant transfer to your Coinbase account" },
          { id := "RTP", name := "Real-Time Payments (RTP)", description := some "US only, instant" } ],
      supported_states := some
        [ "AL", "AK", "AZ", "AR", "CA", "CO", "CT", "DE", "FL", "GA",
          "HI", "ID", "IL", "IN", "IA", "KS", "KY", "LA", "ME", "MD",
          "MA", "MI", "MN", "MS", "MO", "MT", "NE", "NV", "NH", "NJ",
          "NM", "NY", "NC", "ND", "OH", "OK", "OR", "PA", "RI", "SC",
          "SD", "TN", "TX", "UT", "VT", "VA", "WA", "WV", "WI", "WY",
          "DC" ] },
    { code := "GB", name := "United Kingdom",
      cashout_methods :=
        [ { id := "SEPA_BANK_ACCOUNT", name := "SEPA Bank Transfer", description := some "1-3 business days" },
          { id := "PAYPAL", name := "PayPal", description := some "Available in select countries" },
          { id := "FIAT_WALLET", name := "Coinbase Fiat Wallet", description := some "Instant transfer to your Coinbase account" } ],
      supported_states := none },
    { code := "CA", name := "Canada",
      cashout_methods :=
        [ { id := "EFT_BANK_ACCOUNT", name := "EFT Bank Transfer", description := some "1-3 business days" },
          { id := "PAYPAL", name := "PayPal", description := some "Available in select countries" },
          { id := "FIAT_WALLET", name := "Coinbase Fiat Wallet", description := some "Instant transfer to your Coinbase account" } ],
      supported_states := some
        [ "AB", "BC", "MB", "NB", "NL", "NS", "NT", "NU", "ON", "PE", "QC", "SK", "YT" ] },
    { code := "DE", name := "Germany",
      cashout_methods :=
        [ { id := "SEPA_BANK_ACCOUNT", name := "SEPA Bank Transfer", description := some "1-3 business days" },
          { id := "PAYPAL", name := "PayPal", description := some "Available in select countries" },
          { id := "FIAT_WALLET", name := "Coinbase Fiat Wallet", description := some "Instant transfer to your Coinbase account" } ],
      supported_states := none },
    { code := "FR", name := "France",
      cashout_methods :=
        [ { id := "SEPA_BANK_ACCOUNT", name := "SEPA Bank Transfer", description := some "1-3 business days" },
          { id := "PAYPAL", name := "PayPal", description := some "Available in select countries" },
          { id := "FIAT_WALLET", name := "Coinbase Fiat Wallet", description := some "Instant transfer to your Coinbase account" } ],
      supported_states := none },
    { code := "ES", name := "Spain",
      cashout_methods :=
        [ { id := "SEPA_BANK_ACCOUNT", name := "SEPA Bank Transfer", description := some "1-3 business days" },
          { id := "PAYPAL", name := "PayPal", description := some "Available in select countries" },
          { id := "FIAT_WALLET", name := "Coinbase Fiat Wallet", description := some "Instant transfer to your Coinbase account" } ],
      supported_states := none },
    { code := "IT", name := "Italy",
      cashout_methods :=
        [ { id := "SEPA_BANK_ACCOUNT", name := "SEPA Bank Transfer", description := some "1-3 business days" },
          { id := "PAYPAL", name := "PayPal", description := some "Available in select countries" },
          { id := "FIAT_WALLET", name := "Coinbase Fiat Wallet", description := some "Instant transfer to your Coinbase account" } ],
      supported_states := none },
    { code := "AU", name := "Australia",
      cashout_methods :=
        [ { id := "PAYPAL", name := "PayPal", description := some "Available in select countries" },
          { id := "FIAT_WALLET", name := "Coinbase Fiat Wallet", description := some "Instant transfer to your Coinbase account" } ],
      supported_states := none } ]

/-- The hard-coded sell-options fallback dataset returned by
`fetchSellOptions` on any failure (part_001 lines 470-711). -/
def sellOptionsFallback : SellOptionsResponse :=
  { cashout_currencies :=
    [ { code := "USD", name := "US Dollar",
        cashout_methods :=
          [ { id := "ACH_BANK_ACCOUNT", name := "Bank Transfer (ACH)",
              limits := [("USD", { min := "10", max := "25000" })] },
            { id := "PAYPAL", name := "PayPal",
              limits := [("USD", { min := "10", max := "5000" })] },
            { id := "FIAT_WALLET", name := "Coinbase Fiat Wallet",
              limits := [("USD", { min := "1", max := "50000" })] },
            { id := "RTP", name := "Real-Time Payments (RTP)",
              limits := [("USD", { min := "10", max := "5000" })] } ] },
      { code := "EUR", name := "Euro",
        cashout_methods :=
          [ { id := "SEPA_BANK_ACCOUNT", name := "SEPA Bank Transfer",
              limits := [("EUR", { min := "10", max := "25000" })] },
            { id := "PAYPAL", name := "PayPal",
              limits := [("EUR", { min := "10", max := "5000" })] },
            { id := "FIAT_WALLET", name := "Coinbase Fiat Wallet",
              limits := [("EUR", { min := "1", max := "50000" })] } ] },
      { code := "GBP", name := "British Pound",
        cashout_methods :=
          [ { id := "SEPA_BANK_ACCOUNT", name := "SEPA Bank Transfer",
              limits := [("GBP", { min := "10", max := "25000" })] },
            { id := "PAYPAL", name := "PayPal",
              limits := [("GBP", { min := "10", max := "5000" })] },
            { id := "FIAT_WALLET", name := "Coinbase Fiat Wallet",
              limits := [("GBP", { min := "1", max := "50000" })] } ] },
      { code := "CAD", name := "Canadian Dollar",
        cashout_methods :=
          [ { id := "EFT_BANK_ACCOUNT", name := "EFT Bank Transfer",
              limits := [("CAD", { min := "10", max := "25000" })] },
            { id := "PAYPAL", name := "PayPal",
              limits := [("CAD", { min := "10", max := "5000" })] },
            { id := "FIAT_WALLET", name := "Coinbase Fiat Wallet",
              limits := [("CAD", { min := "1", max := "50000" })] } ] },
      { code := "AUD", name := "Australian Dollar",
        cashout_methods :=
          [ { id := "PAYID", name := "PayID",
              limits := [("AUD", { min := "10", max := "25000" })] },
            { id := "PAYPAL", name := "PayPal",
              limits := [("AUD", { min := "10", max := "5000" })] },
            { id := "FIAT_WALLET", name := "Coinbase Fiat Wallet",
              limits := [("AUD", { min := "1", max := "50000" })] } ] } ],
    sell_currencies :=
    [ { code := "BTC", name := "Bitcoin",
        networks := [ { id := "bitcoin", name := "Bitcoin" } ] },
      { code := "ETH", name := "Ethereum",
        networks :=
          [ { id := "ethereum", name := "Ethereum" }, { id := "base", name := "Base" },
            { id := "optimism", name := "Optimism" }, { id := "arbitrum", name := "Arbitrum" } ] },
      { code := "USDC", name := "USD Coin",
        networks :=
          [ { id := "ethereum", name := "Ethereum" }, { id := "base", name := "Base" },
            { id := "optimism", name := "Optimism" }, { id := "polygon", name := "Polygon" },
            { id := "arbitrum", name := "Arbitrum" }, { id := "solana", name := "Solana" },
            { id := "avalanche-c-chain", name := "Avalanche" }, { id := "unichain", name := "Unichain" },
            { id := "aptos", name := "Aptos" }, { id := "bnb-chain", name := "BNB Chain" } ] },
      { code := "SOL", name := "Solana",
        networks := [ { id := "solana", name := "Solana" } ] },
      { code := "MATIC", name := "Polygon",
        networks :=
          [ { id := "ethereum", name := "Ethereum" }, { id := "polygon", name := "Polygon" } ] },
      { code := "AVAX", name := "Avalanche",
        networks :=
          [ { id := "ethereum", name := "Ethereum" },
            { id := "avalanche-c-chain", name := "Avalanche" } ] },
      { code := "LINK", name := "Chainlink",
        networks :=
          [ { id := "ethereum", name := "Ethereum" }, { id := "base", name := "Base" },
            { id := "arbitrum", name := "Arbitrum" } ] },
      { code := "UNI", name := "Uniswap",
        networks :=
          [ { id := "ethereum", name := "Ethereum" }, { id := "polygon", name := "Polygon" } ] },
      { code := "DOGE", name := "Dogecoin",
        networks := [ { id := "dogecoin", name := "Dogecoin" } ] },
      { code := "SHIB", name := "Shiba Inu",
        networks := [ { id := "ethereum", name := "Ethereum" } ] },
      { code := "XRP", name := "XRP",
        networks := [ { id := "ripple", name := "XRP Ledger" } ] },
      { code := "LTC", name := "Litecoin",
        networks := [ { id := "litecoin", name := "Litecoin" } ] },
      { code := "BCH", name := "Bitcoin Cash",
        networks := [ { id := "bitcoin-cash", name := "Bitcoin Cash" } ] } ] }

/-- `fetchSellConfig` (part_001 lines 313-425).  The function keeps no
cache: a successful round trip is transformed and returned, any failure
(non-OK response, parse error, thrown transport error) yields the
static fallback dataset.  The function is total and never propagates
the failure. -/
def fetchSellConfig (upstream : Except Unit SellConfigResponse) : List Country :=
  match upstream with
  | .ok apiData => transformSellConfigResponse apiData
  | .error _ => sellConfigFallback

/-- `fetchSellOptions` (part_001 lines 431-713).  The country and
subdivision arguments only feed the request URL; no cache is consulted
or written, so every failure yields the static fallback dataset. -/
def fetchSellOptions (country : String) (subdivision : Option String)
    (upstream : Except Unit ApiSellOptionsResponse) : SellOptionsResponse :=
  match country, subdivision, upstream with
  | _, _, .ok apiData => transformSellOptionsResponse apiData
  | _, _, .error _ => sellOptionsFallback

end Offramp

/-- A small successful sell-options payload used to exercise the
cache-less sell-options fetcher. -/
def c3SellOptionsInput : Offramp.ApiSellOptionsResponse :=
  { cashout_currencies :=
      [ { id := "USD",
          limits := [ { id := "ACH_BANK_ACCOUNT", min := "5", max := "99" } ] } ],
    sell_currencies :=
      [ { id := "asset-eth", symbol := "ETH", name := "Ethereum",
          networks := [ { name := "ethereum", display_name := "Ethereum",
                          chain_id := none, contract_address := none } ],
          icon_url := none } ] }

/-- C3 counterexample: `fetchSellOptions` keeps no cache, so after a
successful fetch for a key, a later failing fetch for the same key
returns the static fallback dataset rather than the last successful
value. -/
theorem c3_counterexample :
    Offramp.fetchSellOptions "US" (some "CA") (.ok c3SellOptionsInput) =
      Offramp.transformSellOptionsResponse c3SellOptionsInput ∧
    Offramp.fetchSellOptions "US" (some "CA") (.error ()) = Offramp.sellOptionsFallback ∧
    Offramp.sellOptionsFallback ≠ Offramp.transformSellOptionsResponse c3SellOptionsInput := by
  refine ⟨rfl, rfl, ?_⟩
  decide

/-- After a successful buy-config fetch, the cache holds the value the
fetch returned. -/
theorem fetchBuyConfig_ok_cached (now : Nat) (api : Onramp.ApiBuyConfigResponse)
    (st : Onramp.OnrampCacheState) :
    ((Onramp.fetchBuyConfig now (.ok api) st).2).buyConfigCache =
      some ((Onramp.fetchBuyConfig now (.ok api) st).1) := by
  cases h : st.buyConfigCache with
  | none => simp [Onramp.fetchBuyConfig, Onramp.fetchBuyConfigFresh, h]
  | some cached =>
    simp only [Onramp.fetchBuyConfig, Onramp.fetchBuyConfigFresh, h]
    split <;> simp [h]

/-- A failing buy-config fetch returns the cached value when one
exists, whether it is fresh or stale. -/
theorem fetchBuyConfig_error_of_cache (now : Nat) (st : Onramp.OnrampCacheState)
    (v : Onramp.BuyConfigResponse) (h : st.buyConfigCache = some v) :
    (Onramp.fetchBuyConfig now (.error ()) st).1 = v := by
  simp only [Onramp.fetchBuyConfig, Onramp.fetchBuyConfigFresh, h]
  split <;> rfl

/-- After a successful buy-options fetch, the cache for the fetched key
holds the value the fetch returned. -/
theorem fetchBuyOptions_ok_cached (now : Nat) (country : String)
    (subdivision : Option String) (api : Onramp.ApiBuyOptionsResponse)
    (st : Onramp.OnrampCacheState) :
    ((Onramp.fetchBuyOptions now country subdivision (.ok api) st).2).buyOptionsCache.lookup
        (Onramp.optionsCacheKey country subdivision) =
      some ((Onramp.fetchBuyOptions now country subdivision (.ok api) st).1) := by
  cases h : st.buyOptionsCache.lookup (Onramp.optionsCacheKey country subdivision) with
  | none => simp [Onramp.fetchBuyOptions, Onramp.fetchBuyOptionsFresh, h, List.lookup]
  | some cached =>
    simp only [Onramp.fetchBuyOptions, Onramp.fetchBuyOptionsFresh, h]
    split <;> simp [h, List.lookup]

/-- A failing buy-options fetch returns the cached value for its key
when one exists, whether it is fresh or stale. -/
theorem fetchBuyOptions_error_of_cache (now : Nat) (country : String)
    (subdivision : Option String) (st : Onramp.OnrampCacheState)
    (v : Onramp.BuyOptionsResponse)
    (h : st.buyOptionsCache.lookup (Onramp.optionsCacheKey country subdivision) = some v) :
    (Onramp.fetchBuyOptions now country subdivision (.error ()) st).1 = v := by
  simp only [Onramp.fetchBuyOptions, Onramp.fetchBuyOptionsFresh, h]
  split <;> rfl

/-- C3 amended: stale-over-empty holds for the buy-side fetchers, whose
module-level cache retains the last successful value per key, and a
failing fetch after a success for the same key returns that value; the
sell-side fetchers keep no cache and return the static fallback on
every failure. -/
theorem c3_amended_stale_over_empty :
    (∀ (now later : Nat) (api : Onramp.ApiBuyConfigResponse) (st : Onramp.OnrampCacheState),
      (Onramp.fetchBuyConfig later (.error ())
        (Onramp.fetchBuyConfig now (.ok api) st).2).1 =
      (Onramp.fetchBuyConfig now (.ok api) st).1) ∧
    (∀ (now later : Nat) (country : String) (subdivision : Option String)
        (api : Onramp.ApiBuyOptionsResponse) (st : Onramp.OnrampCacheState),
      (Onramp.fetchBuyOptions later country subdivision (.error ())
        (Onramp.fetchBuyOptions now country subdivision (.ok api) st).2).1 =
      (Onramp.fetchBuyOptions now country subdivision (.ok api) st).1) ∧
    (∀ (country : String) (subdivision : Option String),
      Offramp.fetchSellOptions country subdivision (.error ()) = Offramp.sellOptionsFallback) ∧
    (Offramp.fetchSellConfig (.error ()) = Offramp.sellConfigFallback) := by
  refine ⟨?_, ?_, ?_, rfl⟩
  · intro now later api st
    exact fetchBuyConfig_error_of_cache later _ _ (fetchBuyConfig_ok_cached now api st)
  · intro now later country subdivision api st
    exact fetchBuyOptions_error_of_cache later country subdivision _ _
      (fetchBuyOptions_ok_cached now country subdivision api st)
  · intro country subdivision
    rfl

/-- C4: a config or options fetch whose upstream call fails and for
which no previous successful result is cached returns the static
hard-coded fallback dataset for its domain; all four fetchers are total
functions, so the failure is never propagated to the caller. -/
theorem c4_fallback_when_no_cache :
    (∀ (now : Nat) (st : Onramp.OnrampCacheState), st.buyConfigCache = none →
      (Onramp.fetchBuyConfig now (.error ()) st).1 = Onramp.buyConfigFallback) ∧
    (∀ (now : Nat) (country : String) (subdivision : Option String)
        (st : Onramp.OnrampCacheState),
      st.buyOptionsCache.lookup (Onramp.optionsCacheKey country subdivision) = none →
      (Onramp.fetchBuyOptions now country subdivision (.error ()) st).1 =
        Onramp.buyOptionsFallback) ∧
    (Offramp.fetchSellConfig (.error ()) = Offramp.sellConfigFallback) ∧
    (∀ (country : String) (subdivision : Option String),
      Offramp.fetchSellOptions country subdivision (.error ()) = Offramp.sellOptionsFallback) := by
  refine ⟨?_, ?_, rfl, ?_⟩
  · intro now st h
    unfold Onramp.fetchBuyConfig Onramp.fetchBuyConfigFresh
    simp [h]
  · intro now country subdivision st h
    unfold Onramp.fetchBuyOptions Onramp.fetchBuyOptionsFresh
    simp [h]
  · intro country subdivision
    rfl

/-- Witness for C4: both failing fetchers on the initial empty cache
state return their fallback datasets. -/
theorem c4_witness :
    (Onramp.fetchBuyConfig 0 (.error ()) Onramp.initialCacheState).1 =
      Onramp.buyConfigFallback ∧
    (Onramp.fetchBuyOptions 0 "US" (some "CA") (.error ()) Onramp.initialCacheState).1 =
      Onramp.buyOptionsFallback :=
  ⟨c4_fallback_when_no_cache.1 0 Onramp.initialCacheState rfl,
   c4_fallback_when_no_cache.2.1 0 "US" (some "CA") Onramp.initialCacheState rfl⟩

/-- C8: the config transforms keep every country and payment-method
entry in order, and an identifier absent from the display-name tables
passes through with the raw identifier as its display name. -/
theorem c8_transform_keeps_unknown_ids :
    (∀ (r : Onramp.ApiBuyConfigResponse),
      (Onramp.transformBuyConfigResponse r).countries.length = r.countries.length ∧
      (∀ i : Nat, ((Onramp.transformBuyConfigResponse r).countries[i]?).map (fun c => c.id) =
        (r.countries[i]?).map (fun c => c.id)) ∧
      (∀ i : Nat, ((Onramp.transformBuyConfigResponse r).countries[i]?).map
          (fun c => c.paymentMethods.length) =
        (r.countries[i]?).map (fun c => c.payment_methods.length)) ∧
      (∀ i j : Nat, ((Onramp.transformBuyConfigResponse r).countries[i]?).map
          (fun c => (c.paymentMethods[j]?).map (fun m => m.id)) =
        (r.countries[i]?).map (fun c => (c.payment_methods[j]?).map (fun m => m.id))) ∧
      (∀ (i : Nat) (c : Onramp.ApiSupportedCountry), r.countries[i]? = some c →
        Onramp.countryNames.lookup c.id = none →
        ((Onramp.transformBuyConfigResponse r).countries[i]?).map (fun c => c.name) =
          some c.id) ∧
      (∀ (i j : Nat) (c : Onramp.ApiSupportedCountry) (pm : Onramp.ApiPaymentMethodType),
        r.countries[i]? = some c → c.payment_methods[j]? = some pm →
        Onramp.paymentMethodNames.lookup pm.id = none →
        ((Onramp.transformBuyConfigResponse r).countries[i]?).map
          (fun c => (c.paymentMethods[j]?).map (fun m => m.name)) = some (some pm.id))) ∧
    (∀ (r : Offramp.SellConfigResponse),
      (Offramp.transformSellConfigResponse r).length = r.countries.length ∧
      (∀ i : Nat, ((Offramp.transformSellConfigResponse r)[i]?).map (fun c => c.code) =
        (r.countries[i]?).map (fun c => c.id)) ∧
      (∀ i : Nat, ((Offramp.transformSellConfigResponse r)[i]?).map
          (fun c => c.cashout_methods.length) =
        (r.countries[i]?).map (fun c => c.payment_methods.length)) ∧
      (∀ i j : Nat, ((Offramp.transformSellConfigResponse r)[i]?).map
          (fun c => (c.cashout_methods[j]?).map (fun m => m.id)) =
        (r.countries[i]?).map (fun c => (c.payment_methods[j]?).map (fun m => m.id))) ∧
      (∀ (i : Nat) (c : Offramp.SupportedCountry), r.countries[i]? = some c →
        Offramp.countryNames.lookup c.id = none →
        ((Offramp.transformSellConfigResponse r)[i]?).map (fun c => c.name) = some c.id) ∧
      (∀ (i j : Nat) (c : Offramp.SupportedCountry) (pm : Offramp.PaymentMethodType),
        r.countries[i]? = some c → c.payment_methods[j]? = some pm →
        Offramp.paymentMethodNames.lookup pm.id = none →
        ((Offramp.transformSellConfigResponse r)[i]?).map
          (fun c => (c.cashout_methods[j]?).map (fun m => m.name)) = some (some pm.id))) := by
  constructor
  · intro r
    refine ⟨by simp [Onramp.transformBuyConfigResponse], ?_, ?_, ?_, ?_, ?_⟩
    · intro i
      simp [Onramp.transformBuyConfigResponse]
      cases r.countries[i]? <;> simp
    · intro i
      simp [Onramp.transformBuyConfigResponse]
      cases r.countries[i]? <;> simp
    · intro i j
      simp [Onramp.transformBuyConfigResponse]
      cases h : r.countries[i]? with
      | none => simp
      | some c =>
        simp [h]
        cases c.payment_methods[j]? <;> simp
    · intro i c hc hname
      simp [Onramp.transformBuyConfigResponse, hc, hname]
    · intro i j c pm hc hpm hname
      simp [Onramp.transformBuyConfigResponse, hc, hpm, hname]
  · intro r
    refine ⟨by simp [Offramp.transformSellConfigResponse], ?_, ?_, ?_, ?_, ?_⟩
    · intro i
      simp [Offramp.transformSellConfigResponse]
      cases r.countries[i]? <;> simp
    · intro i
      simp [Offramp.transformSellConfigResponse]
      cases r.countries[i]? <;> simp
    · intro i j
      simp [Offramp.transformSellConfigResponse]
      cases h : r.countries[i]? with
      | none => simp
      | some c =>
        simp [h]
        cases c.payment_methods[j]? <;> simp
    · intro i c hc hname
      simp [Offramp.transformSellConfigResponse, hc, hname]
    · intro i j c pm hc hpm hname
      simp [Offramp.transformSellConfigResponse, hc, hpm, hname]

/-- A buy-config payload with a country id and payment-method id that
are absent from the display-name tables. -/
def c8BuyConfigInput : Onramp.ApiBuyConfigResponse :=
  { countries :=
      [ { id := "ZZ", payment_methods := [ { id := "WEIRD_METHOD" } ],
          subdivisions := none } ] }

/-- Witness for C8: the unknown country id ZZ and payment-method id
WEIRD_METHOD survive the buy-config transform, with the raw identifier
used as the display name. -/
theorem c8_witness :
    ((Onramp.transformBuyConfigResponse c8BuyConfigInput).countries[0]?).map
        (fun c => c.name) = some "ZZ" ∧
    ((Onramp.transformBuyConfigResponse c8BuyConfigInput).countries[0]?).map
        (fun c => (c.paymentMethods[0]?).map (fun m => m.name)) = some (some "WEIRD_METHOD") :=
  ⟨(c8_transform_keeps_unknown_ids.1 c8BuyConfigInput).2.2.2.2.1 0
      { id := "ZZ", payment_methods := [ { id := "WEIRD_METHOD" } ], subdivisions := none }
      rfl (by decide),
   (c8_transform_keeps_unknown_ids.1 c8BuyConfigInput).2.2.2.2.2 0 0
      { id := "ZZ", payment_methods := [ { id := "WEIRD_METHOD" } ], subdivisions := none }
      { id := "WEIRD_METHOD" } rfl rfl (by decide)⟩

/-- A buy-options payload with one fiat currency and one limits row. -/
def c9BuyOptionsInput : Onramp.ApiBuyOptionsResponse :=
  { payment_currencies :=
      [ { id := "USD", limits := [ { id := "CARD", min := "10.00", max := "1000.00" } ] } ],
    purchase_currencies := [] }

/-- C9 counterexample: the buy-options transform copies each limits row
unchanged, still keyed by the payment-method id (CARD), and produces no
map indexed by the currency code (USD); the re-keying described by the
claim does not happen in this transform. -/
theorem c9_counterexample :
    ((Onramp.transformBuyOptionsResponse c9BuyOptionsInput).paymentCurrencies[0]?).map
        (fun c => c.limits) =
      some [ { id := "CARD", min := "10.00", max := "1000.00" } ] ∧
    "CARD" ≠ "USD" := by
  refine ⟨rfl, ?_⟩
  decide

/-- C9 amended: the sell-options transform re-keys each limits row of a
fiat currency into a singleton per-currency map on the resulting
cashout method, so the method exposes its min and max indexed by the
currency code; the buy-options transform instead preserves each limits
row unchanged, keyed by the payment-method id. -/
theorem c9_amended_rekey :
    (∀ (r : Offramp.ApiSellOptionsResponse),
      (Offramp.transformSellOptionsResponse r).cashout_currencies.length =
        r.cashout_currencies.length ∧
      (∀ i : Nat, ((Offramp.transformSellOptionsResponse r).cashout_currencies[i]?).map
          (fun c => c.cashout_methods.length) =
        (r.cashout_currencies[i]?).map (fun c => c.limits.length)) ∧
      (∀ (i j : Nat) (cur : Offramp.ApiFiatCurrency) (lim : Offramp.ApiPaymentMethodLimit),
        r.cashout_currencies[i]? = some cur → cur.limits[j]? = some lim →
        ((Offramp.transformSellOptionsResponse r).cashout_currencies[i]?).map
            (fun c => (c.cashout_methods[j]?).map (fun m => (m.id, m.limits))) =
          some (some (lim.id, [(cur.id, { min := lim.min, max := lim.max })])) ∧
        ((Offramp.transformSellOptionsResponse r).cashout_currencies[i]?).map
            (fun c => (c.cashout_methods[j]?).map (fun m => m.limits.lookup cur.id)) =
          some (some (some { min := lim.min, max := lim.max })))) ∧
    (∀ (r : Onramp.ApiBuyOptionsResponse) (i j : Nat) (cur : Onramp.ApiPaymentCurrency)
        (lim : Onramp.ApiPaymentMethodLimit),
      r.payment_currencies[i]? = some cur → cur.limits[j]? = some lim →
      ((Onramp.transformBuyOptionsResponse r).paymentCurrencies[i]?).map
          (fun c => c.limits[j]?) =
        some (some { id := lim.id, min := lim.min, max := lim.max })) := by
  constructor
  · intro r
    refine ⟨by simp [Offramp.transformSellOptionsResponse], ?_, ?_⟩
    · intro i
      simp [Offramp.transformSellOptionsResponse]
      cases r.cashout_currencies[i]? <;> simp
    · intro i j cur lim hcur hlim
      constructor
      · simp [Offramp.transformSellOptionsResponse, hcur, hlim]
      · simp [Offramp.transformSellOptionsResponse, hcur, hlim, List.lookup]
  · intro r i j cur lim hcur hlim
    simp [Onramp.transformBuyOptionsResponse, hcur, hlim]

/-- A sell-options payload with one fiat currency and one limits row. -/
def c9SellOptionsInput : Offramp.ApiSellOptionsResponse :=
  { cashout_currencies :=
      [ { id := "USD", limits := [ { id := "PAYPAL", min := "10", max := "5000" } ] } ],
    sell_currencies := [] }

/-- Witness for C9 at a concrete payload: the PAYPAL limits row of USD
becomes a cashout method whose limits map is keyed by USD. -/
theorem c9_witness :
    ((Offramp.transformSellOptionsResponse c9SellOptionsInput).cashout_currencies[0]?).map
        (fun c => (c.cashout_methods[0]?).map (fun m => m.limits.lookup "USD")) =
      some (some (some { min := "10", max := "5000" })) :=
  ((c9_amended_rekey.1 c9SellOptionsInput).2.2 0 0
    { id := "USD", limits := [ { id := "PAYPAL", min := "10", max := "5000" } ] }
    { id := "PAYPAL", min := "10", max := "5000" } rfl rfl).2

namespace Routes

/-! Embedding of the Next.js API route handlers: the upstream URLs they
dispatch, the path strings they hand to JWT generation, the
classification of upstream failures by the sell-config handler, and the
request validation of the sell-quote handler. -/

/-- The path component of an absolute URL: everything between the end
of the host (the first slash after the `//` scheme separator) and the
first question mark. -/
def pathComponent (url : String) : String :=
  let afterScheme := (url.data.dropWhile (fun c => c != '/')).drop 2
  let pathAndQuery := afterScheme.dropWhile (fun c => c != '/')
  String.mk (pathAndQuery.takeWhile (fun c => c != '?'))

namespace BuyConfigRoute

/-- The dispatched URL of GET /api/buy-config (part_000 companion file,
line 27). -/
def cdpApiUrl : String := "https://api.developer.coinbase.com/onramp/v1/buy/config"

/-- The path handed to `generateJWT` (line 28). -/
def apiPath : String := "/onramp/v1/buy/config"

end BuyConfigRoute

namespace SellConfigRoute

/-- The dispatched URL of GET /api/sell-config (route.ts line 27). -/
def cdpApiUrl : String := "https://api.developer.coinbase.com/onramp/v1/sell/config"

/-- The path handed to `generateJWT` (route.ts line 28). -/
def apiPath : String := "/onramp/v1/sell/config"

end SellConfigRoute

namespace SellOptionsRoute

/-- The dispatched URL of GET /api/sell-options (route.ts line 56); the
serialized `URLSearchParams` query string is appended after a question
mark. -/
def cdpApiUrl (queryString : String) : String :=
  "https://api.developer.coinbase.com/onramp/v1/sell/options?" ++ queryString

/-- The path handed to `generateJWT` (route.ts line 58), deliberately
without the query parameters. -/
def apiPath : String := "/onramp/v1/sell/options"

end SellOptionsRoute

namespace SellQuoteRoute

/-- The dispatched URL of POST /api/sell-quote (part_000 line 119). -/
def cdpApiUrl : String := "https://api.developer.coinbase.com/onramp/v1/sell/quote"

/-- The path handed to `generateJWT` (part_000 line 120). -/
def apiPath : String := "/onramp/v1/sell/quote"

end SellQuoteRoute

/-- C5: for each outbound upstream call, the path passed to JWT
generation is exactly the path component of the dispatched URL and
contains no query string, even for the sell-options route where query
parameters are appended to the dispatched URL. -/
theorem c5_jwt_path_is_dispatched_path :
    pathComponent BuyConfigRoute.cdpApiUrl = BuyConfigRoute.apiPath ∧
    '?' ∉ BuyConfigRoute.apiPath.data ∧
    pathComponent SellConfigRoute.cdpApiUrl = SellConfigRoute.apiPath ∧
    '?' ∉ SellConfigRoute.apiPath.data ∧
    pathComponent SellQuoteRoute.cdpApiUrl = SellQuoteRoute.apiPath ∧
    '?' ∉ SellQuoteRoute.apiPath.data ∧
    (∀ queryString : String,
      pathComponent (SellOptionsRoute.cdpApiUrl queryString) = SellOptionsRoute.apiPath) ∧
    '?' ∉ SellOptionsRoute.apiPath.data := by
  refine ⟨rfl, by decide, rfl, by decide, rfl, by decide, ?_, by decide⟩
  intro queryString
  rfl

/-- Outcome of the upstream HTTP round trip as seen by a route handler:
either the fetch threw (transport failure) or a response with a status
code and body text arrived. -/
inductive UpstreamOutcome where
  | thrown
  | response (status : Nat) (body : String)
deriving DecidableEq, Repr

/-- A JSON error payload produced with `NextResponse.json`: the `error`
field, the optional `details` field, and the HTTP status of the
response itself. -/
structure JsonError where
  error : String
  details : Option String
  status : Nat
deriving DecidableEq, Repr

/-- Result of a route handler: an error payload or a success body. -/
inductive RouteResult where
  | failure (e : JsonError)
  | success (body : String)
deriving DecidableEq, Repr

/-- The `response.ok` flag of the Fetch API: status in the 2xx range. -/
def responseOk (status : Nat) : Bool := 200 ≤ status && status < 300

/-- GET /api/sell-config (src/app/api/sell-config/route.ts): missing
credentials and JWT failure give 500 errors; a thrown fetch lands in
the outer catch; a non-OK upstream status is passed through with one
generic error message and the upstream body as details; an OK response
with an unparseable body gives a 500; otherwise the parsed body is
returned. -/
def sellConfigGET (hasCredentials jwtSucceeds : Bool) (upstream : UpstreamOutcome)
    (bodyParses : Bool) : RouteResult :=
  if !hasCredentials then
    .failure { error := "Server configuration error", details := none, status := 500 }
  else if !jwtSucceeds then
    .failure { error := "Authentication failed", details := none, status := 500 }
  else
    match upstream with
    | .thrown =>
        .failure { error := "Failed to fetch sell config", details := none, status := 500 }
    | .response status body =>
        if !responseOk status then
          .failure { error := "Failed to fetch sell config", details := some body, status := status }
        else if !bodyParses then
          .failure { error := "Invalid response from server", details := none, status := 500 }
        else .success body

/-- The top-level `error` field of a route result. -/
def errorMessage : RouteResult → Option String
  | .failure e => some e.error
  | .success _ => none

/-- The error payload of POST /api/sell-quote, including the optional
`hint` field (part_000 lines 210-229). -/
structure SellQuoteErrorResponse where
  error : String
  details : Option String
  hint : Option String
  status : Nat
deriving DecidableEq, Repr

/-- The non-OK branch of the sell-quote handler: the `error` field is
the same generic string for every status; only `details` and `hint`
vary, and only the literal status 401 is special-cased. -/
def sellQuoteFailureResponse (isDevelopment : Bool) (status : Nat)
    (errorDetails : String) : SellQuoteErrorResponse :=
  if isDevelopment then
    { error := "Failed to generate sell quote",
      details := some errorDetails,
      hint := if status == 401 then some "Check your CDP API credentials in .env.local" else none,
      status := status }
  else
    { error := "Failed to generate sell quote",
      details := if status == 401 then some "Authentication failed - check API credentials" else none,
      hint := none,
      status := status }

/-- C7 counterexample: upstream 401 and 403 responses to the
sell-config route produce the same generic error payload shape as any
other non-2xx status (same `error` string as a 500), so no distinct
AuthenticationFailed error is surfaced. -/
theorem c7_counterexample :
    sellConfigGET true true (.response 401 "Unauthorized") true =
      .failure { error := "Failed to fetch sell config",
                 details := some "Unauthorized", status := 401 } ∧
    sellConfigGET true true (.response 403 "Forbidden") true =
      .failure { error := "Failed to fetch sell config",
                 details := some "Forbidden", status := 403 } ∧
    errorMessage (sellConfigGET true true (.response 401 "x") true) =
      errorMessage (sellConfigGET true true (.response 500 "x") true) :=
  ⟨rfl, rfl, rfl⟩

/-- C7 amended: every non-2xx upstream status, 401 and 403 included, is
surfaced by the sell-config route with the same generic error message
and a pass-through status code; the sell-quote route likewise keeps one
generic error string for all failure statuses, varying only the
optional details or hint text for the literal status 401. -/
theorem c7_amended_no_distinct_auth_error :
    (∀ (status : Nat) (body : String), responseOk status = false →
      sellConfigGET true true (.response status body) true =
        .failure { error := "Failed to fetch sell config",
                   details := some body, status := status }) ∧
    (∀ (isDevelopment : Bool) (status : Nat) (errorDetails : String),
      (sellQuoteFailureResponse isDevelopment status errorDetails).error =
        "Failed to generate sell quote") := by
  constructor
  · intro status body h
    simp [sellConfigGET, h]
  · intro isDevelopment status errorDetails
    cases isDevelopment <;> rfl

/-- Witness for C7 at status 401: the sell-config route returns the
generic error payload, and the sell-quote production error keeps the
generic error string. -/
theorem c7_witness :
    sellConfigGET true true (.response 401 "Unauthorized") true =
      .failure { error := "Failed to fetch sell config",
                 details := some "Unauthorized", status := 401 } ∧
    (sellQuoteFailureResponse false 401 "Unauthorized").error =
      "Failed to generate sell quote" :=
  ⟨c7_amended_no_distinct_auth_error.1 401 "Unauthorized" rfl,
   c7_amended_no_distinct_auth_error.2 false 401 "Unauthorized"⟩

/-- The parsed JSON body of a sell-quote request; every field may be
absent.  An absent field and an empty string are both falsy in the JS
required-field check. -/
structure SellQuoteRequestBody where
  sellCurrency : Option String
  sellAmount : Option String
  sellNetwork : Option String
  cashoutCurrency : Option String
  paymentMethod : Option String
  country : Option String
  subdivision : Option String
  sourceAddress : Option String
  redirectUrl : Option String
  partnerUserId : Option String
deriving DecidableEq, Repr

/-- JS falsiness of an optional string field. -/
def falsy : Option String → Bool
  | none => true
  | some s => s == ""

/-- The required-field check of the sell-quote handler (part_000
line 73); `sellNetwork` and `subdivision` are not checked. -/
def requiredFieldMissing (b : SellQuoteRequestBody) : Bool :=
  falsy b.sellCurrency || falsy b.sellAmount || falsy b.cashoutCurrency ||
  falsy b.paymentMethod || falsy b.country || falsy b.sourceAddress ||
  falsy b.redirectUrl || falsy b.partnerUserId

/-- The JSON body sent upstream (part_000 lines 140-158): the eight
required fields plus the client IP, then `sellNetwork` and
`subdivision` only when truthy. -/
def upstreamRequestBody (b : SellQuoteRequestBody) (clientIp : String) :
    List (String × String) :=
  [ ("sellCurrency", b.sellCurrency.getD ""),
    ("sellAmount", b.sellAmount.getD ""),
    ("cashoutCurrency", b.cashoutCurrency.getD ""),
    ("paymentMethod", b.paymentMethod.getD ""),
    ("country", b.country.getD ""),
    ("sourceAddress", b.sourceAddress.getD ""),
    ("redirectUrl", b.redirectUrl.getD ""),
    ("partnerUserId", b.partnerUserId.getD ""),
    ("clientIp", clientIp) ]
  ++ (match b.sellNetwork with
      | some s => if s == "" then [] else [("sellNetwork", s)]
      | none => [])
  ++ (match b.subdivision with
      | some s => if s == "" then [] else [("subdivision", s)]
      | none => [])

/-- Outcome of POST /api/sell-quote up to the upstream dispatch: the
handler checks credentials, then the required fields, then generates
the JWT, and only then contacts the upstream with the built body. -/
inductive SellQuoteOutcome where
  | serverConfigError
  | missingFields
  | jwtError
  | dispatched (requestBody : List (String × String))
deriving DecidableEq, Repr

/-- POST /api/sell-quote (part_000 lines 40-178), embedded up to the
upstream dispatch.  `missingFields` is returned before any JWT
generation or upstream call happens. -/
def sellQuotePOST (hasCredentials : Bool) (b : SellQuoteRequestBody)
    (jwtSucceeds : Bool) (clientIp : String) : SellQuoteOutcome :=
  if !hasCredentials then .serverConfigError
  else if requiredFieldMissing b then .missingFields
  else if !jwtSucceeds then .jwtError
  else .dispatched (upstreamRequestBody b clientIp)

/-- C10: with credentials configured, the sell-quote handler rejects
with the missing-fields error, before JWT generation and before any
upstream dispatch, whenever one of the eight required fields is absent
or empty; when all eight are present, an absent `sellNetwork` or
`subdivision` does not cause rejection and is simply omitted from the
upstream request body. -/
theorem c10_required_field_validation :
    (∀ (b : SellQuoteRequestBody) (jwtSucceeds : Bool) (clientIp : String),
      (falsy b.sellCurrency || falsy b.sellAmount || falsy b.cashoutCurrency ||
       falsy b.paymentMethod || falsy b.country || falsy b.sourceAddress ||
       falsy b.redirectUrl || falsy b.partnerUserId) = true →
      sellQuotePOST true b jwtSucceeds clientIp = .missingFields) ∧
    (∀ (b : SellQuoteRequestBody) (clientIp : String),
      requiredFieldMissing b = false →
      sellQuotePOST true b true clientIp = .dispatched (upstreamRequestBody b clientIp)) ∧
    (∀ (b : SellQuoteRequestBody) (clientIp : String),
      falsy b.sellNetwork = true →
      (upstreamRequestBody b clientIp).lookup "sellNetwork" = none) ∧
    (∀ (b : SellQuoteRequestBody) (clientIp : String),
      falsy b.subdivision = true →
      (upstreamRequestBody b clientIp).lookup "subdivision" = none) := by
  refine ⟨?_, ?_, ?_, ?_⟩
  · intro b jwtSucceeds clientIp h
    simp [sellQuotePOST, requiredFieldMissing, h]
  · intro b clientIp h
    simp [sellQuotePOST, h]
  · intro b clientIp h
    cases hn : b.sellNetwork with
    | none =>
      cases hs : b.subdivision with
      | none => simp [upstreamRequestBody, hn, hs, List.lookup]
      | some s =>
        by_cases hse : s == ""
        · simp [upstreamRequestBody, hn, hs, hse, List.lookup]
        · simp [upstreamRequestBody, hn, hs, hse, List.lookup]
    | some s =>
      rw [hn] at h
      simp only [falsy] at h
      cases hs : b.subdivision with
      | none => simp [upstreamRequestBody, hn, hs, h, List.lookup]
      | some t =>
        by_cases hte : t == ""
        · simp [upstreamRequestBody, hn, hs, h, hte, List.lookup]
        · simp [upstreamRequestBody, hn, hs, h, hte, List.lookup]
  · intro b clientIp h
    cases hs : b.subdivision with
    | none =>
      cases hn : b.sellNetwork with
      | none => simp [upstreamRequestBody, hn, hs, List.lookup]
      | some s =>
        by_cases hse : s == ""
        · simp [upstreamRequestBody, hn, hs, hse, List.lookup]
        · simp [upstreamRequestBody, hn, hs, hse, List.lookup]
    | some s =>
      rw [hs] at h
      simp only [falsy] at h
      cases hn : b.sellNetwork with
      | none => simp [upstreamRequestBody, hn, hs, h, List.lookup]
      | some t =>
        by_cases hte : t == ""
        · simp [upstreamRequestBody, hn, hs, h, hte, List.lookup]
        · simp [upstreamRequestBody, hn, hs, h, hte, List.lookup]

/-- A request body with every field present except `sellAmount`,
`sellNetwork` and `subdivision`. -/
def c10BodyMissingAmount : SellQuoteRequestBody :=
  { sellCurrency := some "USDC", sellAmount := none, sellNetwork := none,
    cashoutCurrency := some "USD", paymentMethod := some "ACH_BANK_ACCOUNT",
    country := some "US", subdivision := none,
    sourceAddress := some "0xabc", redirectUrl := some "https://example.com/offramp",
    partnerUserId := some "0xabc" }

/-- A complete request body with `sellNetwork` and `subdivision`
absent. -/
def c10BodyComplete : SellQuoteRequestBody :=
  { sellCurrency := some "USDC", sellAmount := some "10", sellNetwork := none,
    cashoutCurrency := some "USD", paymentMethod := some "ACH_BANK_ACCOUNT",
    country := some "US", subdivision := none,
    sourceAddress := some "0xabc", redirectUrl := some "https://example.com/offramp",
    partnerUserId := some "0xabc" }

/-- Witness for C10: a missing `sellAmount` is rejected as missing
fields; a complete body without `sellNetwork` and `subdivision` is
dispatched with neither key in the upstream request body. -/
theorem c10_witness :
    sellQuotePOST true c10BodyMissingAmount true "192.0.2.1" = .missingFields ∧
    sellQuotePOST true c10BodyComplete true "192.0.2.1" =
      .dispatched (upstreamRequestBody c10BodyComplete "192.0.2.1") ∧
    (upstreamRequestBody c10BodyComplete "192.0.2.1").lookup "sellNetwork" = none ∧
    (upstreamRequestBody c10BodyComplete "192.0.2.1").lookup "subdivision" = none :=
  ⟨c10_required_field_validation.1 c10BodyMissingAmount true "192.0.2.1" rfl,
   c10_required_field_validation.2.1 c10BodyComplete "192.0.2.1" rfl,
   c10_required_field_validation.2.2.1 c10BodyComplete "192.0.2.1" rfl,
   c10_required_field_validation.2.2.2 c10BodyComplete "192.0.2.1" rfl⟩

end Routes
